import Mathlib

/-!
Shallow embedding of the Coyote HMM migration driver
(src/driver/LEGACY/hmm/fpga_hmm.c) and proofs settling the frozen claims
about it.  Pure arithmetic is over Nat (the C code uses uint64_t; none of
the settled properties depends on 64-bit wraparound, and every concrete
instance stays far below 2^64).  External kernel services (migrate_vma,
DMA engine, locks, the accelerator TLB write port) are represented either
by oracles recorded in small environment structures or by events collected
in an execution trace, so that lock discipline and resource-release
obligations become statements about traces.
-/

namespace CoyoteHMM

/-- Linux error number used by the driver as -ENOMEM. -/
def ENOMEM : Int := 12

/-- Linux error number used by the driver as -EBUSY. -/
def EBUSY : Int := 16

/-- Linux error number used by the driver as -EFAULT. -/
def EFAULT : Int := 14

/-- Linux error number used by the driver as -EINVAL. -/
def EINVAL : Int := 22

/-- Regular page shift (4 KiB pages), the PAGE_SHIFT of the target platform. -/
def PAGE_SHIFT : Nat := 12

/-- Regular page size in bytes. -/
def PAGE_SIZE : Nat := 4096

/-- DEVMEM_CHUNK_SIZE from fpga_hmm.c line 35: 256 MiB per device-memory chunk. -/
def DEVMEM_CHUNK_SIZE : Nat := 256 * 1024 * 1024

/-- Modelled from the spec: MAX_N_MAP_PAGES is the fixed cap on the install
loop index in tlb_map_hmm (line 1168).  Its value is defined in a header
outside src/; the TLB functions below take the cap as an argument, and this
constant is the instantiation used by the migration models.  Any positive
value plays the same role. -/
def MAX_N_MAP_PAGES : Nat := 512

/-- `v` rounded down to a multiple of `sz`: the C idiom `v & page_mask`
with `page_mask = ~(page_size - 1)`.  Modelled from the spec: the
tlb_metadata page_mask (declared outside src/) selects the granule
(regular or huge) alignment of an address. -/
def alignDown (v sz : Nat) : Nat := v / sz * sz

/-- One accelerator TLB entry, as the spec's TLBMappingManager data model:
(virtual page key, physical frame, direction, context id, host process id,
granularity).  The `vaddr` key stores exactly the value the driver passed
to the mapping primitive, since the hardware interface is keyed by that
value. -/
structure TLBEntry where
  vaddr : Nat
  paddr : Nat
  host : Bool
  ctid : Int
  hpid : Int
  huge : Bool
deriving DecidableEq

/-- Modelled from the spec: create_tlb_mapping (declared outside src/)
installs one entry for (vaddr, ctid, hpid), keeping at most one entry per
(context, host process, virtual page) as the spec's TLBEntry invariant
requires. -/
def create_tlb_mapping (tlb : List TLBEntry) (vaddr paddr : Nat) (host : Bool)
    (ctid hpid : Int) (huge : Bool) : List TLBEntry :=
  ⟨vaddr, paddr, host, ctid, hpid, huge⟩ ::
    tlb.filter (fun e => !(e.vaddr == vaddr && e.ctid == ctid && e.hpid == hpid))

/-- Modelled from the spec: create_tlb_unmapping (declared outside src/)
removes the entries keyed by (vaddr, hpid); it receives no context id, so
all contexts of that host process lose the key.  Idempotent on absent
entries. -/
def create_tlb_unmapping (tlb : List TLBEntry) (vaddr : Nat) (hpid : Int) :
    List TLBEntry :=
  tlb.filter (fun e => !(e.vaddr == vaddr && e.hpid == hpid))

/-- One iteration of the fill loop of tlb_map_hmm (lines 1168-1175): the
accumulator carries (tmp_vaddr, tlb).  Faithful to the source: when
`paddr[i]` is the sentinel 0 the `continue` skips the entry AND skips the
`tmp_vaddr += pg_inc` increment. -/
def tlbMapStep (host : Bool) (ctid hpid : Int) (huge : Bool) (paddr : List Nat)
    (pg_inc : Nat) (st : Nat × List TLBEntry) (i : Nat) : Nat × List TLBEntry :=
  if paddr.getD i 0 == 0 then st
  else (st.1 + pg_inc,
    create_tlb_mapping st.2 st.1 (paddr.getD i 0) host ctid hpid huge)

/-- tlb_map_hmm (lines 1155-1176).  The C loop
`for (i = 0; (i < n_map_pages) && (i < MAX_N_MAP_PAGES); i += pg_inc)`
visits exactly the multiples of pg_inc below min n_map_pages max_n_map
(pg_inc is positive in every instantiation; the driver would not terminate
otherwise). -/
def tlb_map_hmm (tlb : List TLBEntry) (vaddr : Nat) (paddr : List Nat)
    (n_pages : Nat) (host : Bool) (ctid hpid : Int) (huge : Bool)
    (n_pages_in_huge dif_order_page_shift max_n_map : Nat) : List TLBEntry :=
  let pg_inc := if huge then n_pages_in_huge else 1
  let n_map_pages := if huge then n_pages >>> dif_order_page_shift else n_pages
  (((List.range (min n_map_pages max_n_map)).filter (fun i => i % pg_inc == 0)).foldl
      (tlbMapStep host ctid hpid huge paddr pg_inc) (vaddr, tlb)).2

/-- tlb_unmap_hmm (lines 1185-1216), first loop: create_tlb_unmapping at
tmp_vaddr for each visited index; tmp_vaddr advances by pg_inc every
iteration, so the visited key at loop index i is vaddr + i.  The second
loop only issues invalidation commands to the accelerator and does not
change the mapping table.  No MAX_N_MAP_PAGES cap appears. -/
def tlb_unmap_hmm (tlb : List TLBEntry) (vaddr : Nat) (n_pages : Nat)
    (hpid : Int) (huge : Bool) (n_pages_in_huge dif_order_page_shift : Nat) :
    List TLBEntry :=
  let pg_inc := if huge then n_pages_in_huge else 1
  let n_map_pages := if huge then n_pages >>> dif_order_page_shift else n_pages
  ((List.range n_map_pages).filter (fun i => i % pg_inc == 0)).foldl
    (fun t i => create_tlb_unmapping t (vaddr + i) hpid) tlb

/-- cyt_interval_invalidate (lines 142-181).  Oracles:
`migrate_owner_self` is the line 158 fast-path test
(event == MMU_NOTIFY_MIGRATE and owner == this device); `blockable` is
mmu_notifier_range_blockable; `lock_busy` is whether the trylock of the
device migration lock fails.  Faithful to the source, line 177 passes
`start << PAGE_SHIFT` (start is already a byte address) as the unmap
vaddr. -/
def cyt_interval_invalidate (tlb : List TLBEntry) (range_start range_end : Nat)
    (huge : Bool) (hpid : Int) (migrate_owner_self blockable lock_busy : Bool)
    (huge_shift n_pages_in_huge dif_order_page_shift : Nat) :
    Bool × List TLBEntry :=
  if migrate_owner_self then (true, tlb)
  else if !blockable && lock_busy then (false, tlb)
  else
    let page_size := if huge then 2 ^ huge_shift else PAGE_SIZE
    let start := alignDown range_start page_size
    let endv := alignDown (range_end + page_size - 1) page_size
    let first := start >>> PAGE_SHIFT
    let last := endv >>> PAGE_SHIFT
    let n_pages := last - first
    (true, tlb_unmap_hmm tlb (start <<< PAGE_SHIFT) n_pages hpid huge
      n_pages_in_huge dif_order_page_shift)

/-- The page-count computation of mmu_handler_hmm (lines 86-91):
first and last are regular-page indices of the granule-aligned first and
last byte, n = last - first + 1, multiplied by n_pages_in_huge when the
range is backed by transparent huge pages. -/
def n_pages_mmu_handler (vaddr len : Nat) (hugepages : Bool)
    (huge_shift n_pages_in_huge : Nat) : Nat :=
  let page_size := if hugepages then 2 ^ huge_shift else PAGE_SIZE
  let first := alignDown vaddr page_size >>> PAGE_SHIFT
  let last := alignDown (vaddr + len - 1) page_size >>> PAGE_SHIFT
  let n := last - first + 1
  if hugepages then n * n_pages_in_huge else n

/-- Modelled from the spec: the number of regular pages in the
granule-aligned range covering [vaddr, vaddr+len) is the number of spanned
granules times the constituent regular-page count of the granule. -/
def n_pages_granule_spec (vaddr len : Nat) (hugepages : Bool)
    (huge_shift n_pages_in_huge : Nat) : Nat :=
  let g := if hugepages then 2 ^ huge_shift else PAGE_SIZE
  let granules := (alignDown (vaddr + len - 1) g - alignDown vaddr g) / g + 1
  if hugepages then granules * n_pages_in_huge else granules

/-- One iteration of the retry loop of fpga_do_host_fault as seen through
its external calls: `timed_out` is time_after(jiffies, timeout) at the top
of the iteration, `fault_res` is what hmm_range_fault would return, and
`stale` is what mmu_interval_read_retry would return for the sequence
number read by this iteration. -/
structure FaultIter where
  timed_out : Bool
  fault_res : Int
  stale : Bool
deriving DecidableEq

/-- How the retry loop of fpga_do_host_fault exited. -/
inductive FaultExit
  | timeout
  | fault_err
  | ok
deriving DecidableEq

/-- The retry loop of fpga_do_host_fault (lines 316-341), driven by a
script of iterations; the Nat accumulator counts invocations of
hmm_range_fault.  Returns (exit kind, returned value, fault-call count);
none means the script ran out (the loop itself only exits through the
three returns).  The -EINVAL and -ENOMEM returns of the function happen
before this loop and are not part of the claim. -/
def fpga_do_host_fault_loop : List FaultIter → Nat → Option (FaultExit × Int × Nat)
  | [], _ => none
  | it :: rest, k =>
    if it.timed_out then some (FaultExit.timeout, -EBUSY, k)
    else if it.fault_res ≠ 0 then
      if it.fault_res = -EBUSY then fpga_do_host_fault_loop rest (k + 1)
      else some (FaultExit.fault_err, it.fault_res, k + 1)
    else if it.stale then fpga_do_host_fault_loop rest (k + 1)
    else some (FaultExit.ok, 0, k + 1)

/-- The locks of one vfpga_dev: mmu_lock (device-wide migration lock), the
TLB configuration lock toggled by change_tlb_lock, sync_lock and
offload_lock (DMA classes), page_lock (free-page list), sections_lock
(chunk list). -/
inductive LockId
  | mmu
  | tlb
  | sync
  | offload
  | page
  | sections
deriving DecidableEq

/-- Observable actions of a driver execution.  Everything the external
kernel world sees (lock operations, page lock/refcount operations, pushes
onto the device-private free list, DMA waits, migrate_vma commit and
finalize, memory-region release) is recorded in order. -/
inductive Ev
  | mutex_lock (l : LockId)
  | mutex_unlock (l : LockId)
  | spin_lock (l : LockId)
  | spin_unlock (l : LockId)
  | lock_page (p : Nat)
  | unlock_page (p : Nat)
  | put_page (p : Nat)
  | free_private_push (p : Nat)
  | tlb_unmap_ev
  | tlb_map_ev
  | tlb_lock_toggle
  | invldt_wait
  | dma_wait
  | free_card_mem (addrs : List Nat)
  | migrate_pages_commit (cpages : Nat)
  | migrate_finalize
  | release_region (base : Nat)
deriving DecidableEq

/-- Outcome of a migration call: return value, accelerator TLB state after
the call, and the trace of observable actions. -/
structure MigResult where
  ret : Int
  tlb : List TLBEntry
  trace : List Ev
deriving DecidableEq

/-- External world of one fpga_migrate_to_host call (regular-page
granularity, args->hugepages = false; the hugepages branch of the staging
loop, lines 742-760, is not exercised by the claims settled on this
definition).  The first six fields are the outcomes of the bookkeeping
allocations and lookups in source order; `eligible i` is bit
MIGRATE_PFN_MIGRATE of mig_args.src[i]; `src_card i` is the card_address
recorded in the zone_device_data of source device page i; `alloc_host i`
is the pfn of the page alloc_page_vma returns for slot i (none = failure);
`ptw i` is the pfn host_ptw returns (none = NULL).  The two-argument
vmalloc used throughout the driver is array allocation declared outside
src/; the undo loop's `mig_args.dst[i] == 0` test only works on zeroed
arrays, so it is modelled as zero-initialized. -/
structure ToHostEnv where
  src_ok : Bool
  dst_ok : Bool
  spages_ok : Bool
  dpages_ok : Bool
  vma_ok : Bool
  setup_res : Int
  eligible : Nat → Bool
  src_card : Nat → Nat
  alloc_host : Nat → Option Nat
  ptw : Nat → Option Nat
  host_arr_ok : Bool
  card_arr_ok : Bool

/-- Destination host pfn staged at slot i (set iff the slot is eligible
and alloc_page_vma succeeded); exactly the slots where the source writes
mig_args.dst[i]. -/
def hostStagedPfn (env : ToHostEnv) (i : Nat) : Option Nat :=
  if env.eligible i then env.alloc_host i else none

/-- dpages[i] after the staging loop of fpga_migrate_to_host
(lines 736-775): ptw result for non-eligible slots, alloc_page_vma result
for eligible slots. -/
def hostDpages (env : ToHostEnv) (n i : Nat) : Option Nat :=
  if i < n then (if env.eligible i then env.alloc_host i else env.ptw i) else none

/-- spages[i] after the staging loop: the source device page (represented
by its card_address) for eligible slots, untouched (zero) otherwise. -/
def hostSpages (env : ToHostEnv) (n i : Nat) : Option Nat :=
  if i < n ∧ env.eligible i = true then some (env.src_card i) else none

/-- mig_args.dst[i] after the staging loop (none encodes the value 0). -/
def hostDst (env : ToHostEnv) (n i : Nat) : Option Nat :=
  if i < n then hostStagedPfn env i else none

/-- Page-lock events of the staging loop, in slot order. -/
def hostStageTrace (env : ToHostEnv) (n : Nat) : List Ev :=
  (List.range n).flatMap (fun i =>
    match hostStagedPfn env i with
    | some p => [Ev.lock_page p]
    | none => [])

/-- The undo loop of fpga_migrate_to_host (lines 782-791): every slot with
a staged destination page is unlocked, its reference dropped, and pushed
onto the device-private free list by cpu_free_private_page, in slot
order. -/
def hostUndoTrace (env : ToHostEnv) (n : Nat) : List Ev :=
  (List.range n).flatMap (fun i =>
    match hostDpages env n i, hostDst env n i with
    | some p, some _ => [Ev.unlock_page p, Ev.put_page p, Ev.free_private_push p]
    | _, _ => [])

/-- dpages_fail of fpga_migrate_to_host: some eligible slot's
alloc_page_vma failed. -/
def hostDpagesFail (env : ToHostEnv) (n : Nat) : Bool :=
  (List.range n).any (fun i => env.eligible i && (env.alloc_host i).isNone)

/-- host_address array fill (lines 815-818): slot i receives the
card_address of spages[i] when that page exists, else stays 0. -/
def hostAddressArr (env : ToHostEnv) (n : Nat) : List Nat :=
  (List.range n).map (fun i =>
    match hostSpages env n i with
    | some c => c
    | none => 0)

/-- card_address array fill (lines 819-821): slot i receives
page_to_pfn(dpages[i]) when that page exists, else stays 0. -/
def cardAddressArr (env : ToHostEnv) (n : Nat) : List Nat :=
  (List.range n).map (fun i =>
    match hostDpages env n i with
    | some p => p
    | none => 0)

/-- mig_args.cpages as migrate_vma_setup reports it: the number of slots
collected for migration. -/
def hostCpages (env : ToHostEnv) (n : Nat) : Nat :=
  ((List.range n).filter env.eligible).length

/-- The card addresses collected for free_card_memory (lines 826-838), in
slot order. -/
def hostCardFreeList (env : ToHostEnv) (n : Nat) : List Nat :=
  (List.range n).flatMap (fun i =>
    match hostSpages env n i with
    | some c => [c]
    | none => [])

/-- The trace of the undo branch of fpga_migrate_to_host (invalidation,
staging, the release loop, then the cpages = 0 abort through
migrate_vma_pages and migrate_vma_finalize). -/
def hostAbortTrace (env : ToHostEnv) (n : Nat) : List Ev :=
  [Ev.tlb_unmap_ev] ++ hostStageTrace env n ++ hostUndoTrace env n
    ++ [Ev.migrate_pages_commit 0, Ev.migrate_finalize]

/-- The trace of the success path of fpga_migrate_to_host: invalidation,
staging, free_card_memory when any page migrates, the invalidation-
completion wait, the DMA submit-and-wait under sync_lock when any page
migrates, commit, finalize, remap. -/
def hostSuccessTrace (env : ToHostEnv) (n : Nat) : List Ev :=
  [Ev.tlb_unmap_ev] ++ hostStageTrace env n
    ++ (if 0 < hostCpages env n
        then [Ev.free_card_mem (hostCardFreeList env n)] else [])
    ++ [Ev.invldt_wait]
    ++ (if 0 < hostCpages env n
        then [Ev.mutex_lock LockId.sync, Ev.dma_wait, Ev.mutex_unlock LockId.sync]
        else [])
    ++ [Ev.migrate_pages_commit (hostCpages env n), Ev.migrate_finalize,
        Ev.tlb_map_ev]

/-- fpga_migrate_to_host (lines 656-893), regular granularity.  Branches
in source order: the four bookkeeping vmallocs, the vma intersection
lookup, migrate_vma_setup, then invalidation (tlb_unmap_hmm at
start >> PAGE_SHIFT), staging, the undo block on allocation failure
(cpages forced to 0, so migrate_vma_pages + finalize abort the staged
migration), the address-array fills, free_card_memory, the invalidation
wait, the DMA block under sync_lock, commit, finalize, and the final
tlb_map_hmm which is passed the host_address array and STRM_ACCESS
(modelled host = true). -/
def fpga_migrate_to_host (env : ToHostEnv) (tlb : List TLBEntry)
    (start n_pages : Nat) (ctid hpid : Int) : MigResult :=
  if !env.src_ok then ⟨-ENOMEM, tlb, []⟩
  else if !env.dst_ok then ⟨-ENOMEM, tlb, []⟩
  else if !env.spages_ok then ⟨-ENOMEM, tlb, []⟩
  else if !env.dpages_ok then ⟨-ENOMEM, tlb, []⟩
  else if !env.vma_ok then ⟨-EFAULT, tlb, []⟩
  else if env.setup_res ≠ 0 then ⟨env.setup_res, tlb, []⟩
  else
    let tlb1 := tlb_unmap_hmm tlb (start >>> PAGE_SHIFT) n_pages hpid false 1 0
    if hostDpagesFail env n_pages then
      ⟨-ENOMEM, tlb1, hostAbortTrace env n_pages⟩
    else if !env.host_arr_ok then
      ⟨-ENOMEM, tlb1, [Ev.tlb_unmap_ev] ++ hostStageTrace env n_pages⟩
    else if !env.card_arr_ok then
      ⟨-ENOMEM, tlb1, [Ev.tlb_unmap_ev] ++ hostStageTrace env n_pages⟩
    else
      ⟨0,
        tlb_map_hmm tlb1 (start >>> PAGE_SHIFT) (hostAddressArr env n_pages)
          n_pages true ctid hpid false 1 0 MAX_N_MAP_PAGES,
        hostSuccessTrace env n_pages⟩

/-- user_migrate_to_host (lines 193-222): takes the device migration lock
(mmu_lock) and toggles the TLB configuration lock around the whole
fpga_migrate_to_host call, releasing them only after it returns. -/
def user_migrate_to_host (env : ToHostEnv) (tlb : List TLBEntry)
    (start n_pages : Nat) (ctid hpid : Int) : MigResult :=
  let inner := fpga_migrate_to_host env tlb start n_pages ctid hpid
  ⟨inner.ret, inner.tlb,
    [Ev.mutex_lock LockId.mmu, Ev.tlb_lock_toggle] ++ inner.trace
      ++ [Ev.tlb_lock_toggle, Ev.mutex_unlock LockId.mmu]⟩

/-- External world of one fpga_migrate_to_card call (regular granularity):
same shape as ToHostEnv, with `alloc_priv i` the pfn alloc_private_page
returns for slot i (none = failure) and `src_host i` the host pfn of
source page i. -/
structure ToCardEnv where
  src_ok : Bool
  dst_ok : Bool
  spages_ok : Bool
  dpages_ok : Bool
  vma_ok : Bool
  setup_res : Int
  eligible : Nat → Bool
  src_host : Nat → Nat
  alloc_priv : Nat → Option Nat
  ptw : Nat → Option Nat

/-- Destination device pfn staged at slot i of fpga_migrate_to_card. -/
def cardStagedPfn (env : ToCardEnv) (i : Nat) : Option Nat :=
  if env.eligible i then env.alloc_priv i else none

/-- dpages[i] after the staging loop of fpga_migrate_to_card
(lines 982-1008). -/
def cardDpages (env : ToCardEnv) (n i : Nat) : Option Nat :=
  if i < n then (if env.eligible i then env.alloc_priv i else env.ptw i) else none

/-- mig_args.dst[i] after the staging loop of fpga_migrate_to_card. -/
def cardDst (env : ToCardEnv) (n i : Nat) : Option Nat :=
  if i < n then cardStagedPfn env i else none

/-- Page-lock events of the fpga_migrate_to_card staging loop. -/
def cardStageTrace (env : ToCardEnv) (n : Nat) : List Ev :=
  (List.range n).flatMap (fun i =>
    match cardStagedPfn env i with
    | some p => [Ev.lock_page p]
    | none => [])

/-- The undo loop of fpga_migrate_to_card (lines 1015-1024). -/
def cardUndoTrace (env : ToCardEnv) (n : Nat) : List Ev :=
  (List.range n).flatMap (fun i =>
    match cardDpages env n i, cardDst env n i with
    | some p, some _ => [Ev.unlock_page p, Ev.put_page p, Ev.free_private_push p]
    | _, _ => [])

/-- dpages_fail of fpga_migrate_to_card. -/
def cardDpagesFail (env : ToCardEnv) (n : Nat) : Bool :=
  (List.range n).any (fun i => env.eligible i && (env.alloc_priv i).isNone)

/-- Result of fpga_migrate_to_card up to and including the staging-failure
undo block: `reached_success_path` is true when control passes line 1029
into card allocation, zone setup, DMA, commit and remap, which the claims
settled here do not need. -/
structure CardStageResult where
  reached_success_path : Bool
  ret : Int
  tlb : List TLBEntry
  trace : List Ev
deriving DecidableEq

/-- fpga_migrate_to_card (lines 904-1029), regular granularity, embedded
through the destination staging and its undo block.  Identical branch
structure to fpga_migrate_to_host up to that point, with destinations
drawn from alloc_private_page instead of alloc_page_vma; the undo block
(allocation failure) unlocks, releases and pushes every staged page onto
the device-private free list, zeroes cpages and aborts the staged
migration, returning -ENOMEM. -/
def fpga_migrate_to_card_stage (env : ToCardEnv) (tlb : List TLBEntry)
    (start n_pages : Nat) (ctid hpid : Int) : CardStageResult :=
  if !env.src_ok then ⟨false, -ENOMEM, tlb, []⟩
  else if !env.dst_ok then ⟨false, -ENOMEM, tlb, []⟩
  else if !env.spages_ok then ⟨false, -ENOMEM, tlb, []⟩
  else if !env.dpages_ok then ⟨false, -ENOMEM, tlb, []⟩
  else if !env.vma_ok then ⟨false, -EFAULT, tlb, []⟩
  else if env.setup_res ≠ 0 then ⟨false, env.setup_res, tlb, []⟩
  else
    let tlb1 := tlb_unmap_hmm tlb (start >>> PAGE_SHIFT) n_pages hpid false 1 0
    if cardDpagesFail env n_pages then
      ⟨false, -ENOMEM, tlb1,
        [Ev.tlb_unmap_ev] ++ cardStageTrace env n_pages ++ cardUndoTrace env n_pages
          ++ [Ev.migrate_pages_commit 0, Ev.migrate_finalize]⟩
    else
      ⟨true, 0, tlb1, [Ev.tlb_unmap_ev] ++ cardStageTrace env n_pages⟩

/-- State of the device-private page allocator of one device: the
free_pages singly-linked list (pages represented by pfn, head first) and
the mem_sections chunk list (inclusive resource ranges). -/
structure AllocState where
  free_pages : List Nat
  sections : List (Nat × Nat)
deriving DecidableEq

/-- External world of one alloc_new_prvt_pages call: whether the kzalloc
of the management struct succeeds, the inclusive (start, end) resource
range request_free_mem_region returns (none = failure), and whether
memremap_pages succeeds. -/
structure GrowOracle where
  kzalloc_ok : Bool
  region : Option (Nat × Nat)
  remap_ok : Bool
deriving DecidableEq

/-- alloc_new_prvt_pages (lines 1328-1398).  Faithful to the source: on
the memremap_pages failure path (err_remap) the region is released and
the management struct freed, but ret_val is never assigned, so the
function returns 0.  On success the chunk is recorded in mem_sections and
its range_len >> PAGE_SHIFT pages are pushed head-first onto free_pages
under page_lock. -/
def alloc_new_prvt_pages (o : GrowOracle) (st : AllocState) :
    Int × AllocState × List Ev :=
  if !o.kzalloc_ok then (-ENOMEM, st, [])
  else
    match o.region with
    | none => (-ENOMEM, st, [])
    | some (rstart, rend) =>
      if !o.remap_ok then (0, st, [Ev.release_region rstart])
      else
        let n_pages := (rend - rstart + 1) >>> PAGE_SHIFT
        let pfn0 := rstart >>> PAGE_SHIFT
        (0,
          ⟨(List.range n_pages).foldl (fun fp i => (pfn0 + i) :: fp) st.free_pages,
            (rstart, rend) :: st.sections⟩,
          [Ev.spin_lock LockId.sections, Ev.spin_unlock LockId.sections,
            Ev.spin_lock LockId.page, Ev.spin_unlock LockId.page])

/-- Outcome of alloc_private_page: the returned page (none = NULL),
whether the call dereferenced the NULL list head (the path where the free
list is still empty at the pop, which never returns), the allocator state,
and the trace. -/
structure AllocResult where
  page : Option Nat
  crashed : Bool
  st : AllocState
  trace : List Ev
deriving DecidableEq

/-- The pop half of alloc_private_page (lines 1312-1318): take page_lock,
pop the list head, clear its zone_device_data, release page_lock.  With
an empty list the source dereferences the NULL head. -/
def allocPopPath (st : AllocState) (tr : List Ev) : AllocResult :=
  match st.free_pages with
  | [] => ⟨none, true, st, tr ++ [Ev.spin_lock LockId.page]⟩
  | p :: rest =>
    ⟨some p, false, ⟨rest, st.sections⟩,
      tr ++ [Ev.spin_lock LockId.page, Ev.spin_unlock LockId.page]⟩

/-- alloc_private_page (lines 1298-1319).  Faithful to the source: when
the free list is empty and alloc_new_prvt_pages fails, line 1306 releases
page_lock without any matching acquisition before returning NULL. -/
def alloc_private_page (o : GrowOracle) (st : AllocState) : AllocResult :=
  if st.free_pages.isEmpty then
    let grown := alloc_new_prvt_pages o st
    if grown.1 ≠ 0 then
      ⟨none, false, grown.2.1, grown.2.2 ++ [Ev.spin_unlock LockId.page]⟩
    else allocPopPath grown.2.1 grown.2.2
  else allocPopPath st []

/-- cpu_free_private_page (lines 1280-1290): push the page onto the free
list under page_lock. -/
def cpu_free_private_page (st : AllocState) (p : Nat) : AllocState × List Ev :=
  (⟨p :: st.free_pages, st.sections⟩,
    [Ev.spin_lock LockId.page, Ev.spin_unlock LockId.page])

/-- Contribution of one event to the hold count of the device migration
lock (mmu_lock). -/
def mmuDelta (e : Ev) : Int :=
  match e with
  | Ev.mutex_lock LockId.mmu => 1
  | Ev.mutex_unlock LockId.mmu => -1
  | _ => 0

/-- Contribution of one event to the hold count of spinlock `l`. -/
def lockDelta (l : LockId) (e : Ev) : Int :=
  match e with
  | Ev.spin_lock l2 => if l2 = l then 1 else 0
  | Ev.spin_unlock l2 => if l2 = l then -1 else 0
  | _ => 0

/-- Net acquisitions minus releases of spinlock `l` over a trace. -/
def spinBalance (l : LockId) (tr : List Ev) : Int :=
  (tr.map (lockDelta l)).sum

/-- Walk a trace maintaining the mmu_lock hold count `d`; true iff every
dma_wait event occurs while the count is positive. -/
def dmaWaitsUnderMmuGo : List Ev → Int → Bool
  | [], _ => true
  | e :: r, d =>
    if e = Ev.dma_wait then decide (0 < d) && dmaWaitsUnderMmuGo r d
    else dmaWaitsUnderMmuGo r (d + mmuDelta e)

/-- Every dma_wait in the trace happens while mmu_lock is held. -/
def dmaWaitsUnderMmu (tr : List Ev) : Bool :=
  dmaWaitsUnderMmuGo tr 0

/-- Walk a trace maintaining the mmu_lock hold count; count the dma_wait
events that occur while the count is positive. -/
def dmaWaitsHeldCountGo : List Ev → Int → Nat
  | [], _ => 0
  | e :: r, d =>
    if e = Ev.dma_wait then (if 0 < d then 1 else 0) + dmaWaitsHeldCountGo r d
    else dmaWaitsHeldCountGo r (d + mmuDelta e)

/-- Number of dma_wait events of the trace at which mmu_lock is held. -/
def dmaWaitsHeldCount (tr : List Ev) : Nat :=
  dmaWaitsHeldCountGo tr 0

/-- A fully successful single-page migrate-to-host world: the one page is
eligible, its source device page sits at card_address 7, and the freshly
allocated destination host page has pfn 9. -/
def envOnePageToHost : ToHostEnv :=
  ⟨true, true, true, true, true, 0,
    fun _ => true, fun _ => 7, fun _ => some 9, fun _ => none, true, true⟩

/-- Migrate-to-host world of two eligible pages where the destination
allocation succeeds for slot 0 (host pfn 9) and fails for slot 1. -/
def envAllocFailToHost : ToHostEnv :=
  ⟨true, true, true, true, true, 0,
    fun _ => true, fun i => 30 + i, fun i => if i = 0 then some 9 else none,
    fun _ => none, true, true⟩

/-- Migrate-to-card world of three eligible pages where alloc_private_page
succeeds for slots 0 and 1 (device pfns 70, 71) and fails for slot 2. -/
def envAllocFailToCard : ToCardEnv :=
  ⟨true, true, true, true, true, 0,
    fun _ => true, fun i => 50 + i, fun i => if i < 2 then some (70 + i) else none,
    fun _ => none⟩

/-- A fully successful single-page migrate-to-host world used for the lock
discipline analysis (same shape as envOnePageToHost). -/
def envOnePageLockStudy : ToHostEnv :=
  ⟨true, true, true, true, true, 0,
    fun _ => true, fun _ => 21, fun _ => some 22, fun _ => none, true, true⟩

/-! ### Theorems settling the claims -/

/-- Claim C1 (refuted, code bug): a successful one-page migrate-to-host of
an eligible device-resident page with card_address 7 and freshly allocated
host pfn 9 installs a host-direction TLB entry whose physical address is 7
(the vacated card address, because lines 815-818 fill host_address[] from
the SOURCE pages' card_address and line 873 hands host_address to
tlb_map_hmm), and no entry pointing at the new host page 9 exists;
the claim requires the entry to point at the freshly allocated host
page. -/
theorem C1_remap_installs_card_address :
    (fpga_migrate_to_host envOnePageToHost [] 20480 1 0 42).ret = 0 ∧
    TLBEntry.mk 5 7 true 0 42 false ∈
      (fpga_migrate_to_host envOnePageToHost [] 20480 1 0 42).tlb ∧
    ((fpga_migrate_to_host envOnePageToHost [] 20480 1 0 42).tlb.all
      (fun e => e.paddr != 9)) = true := by
  decide

/-- Claim C3 (refuted, code bug): an invalidation reported for the regular
page range [0x5000, 0x6000) returns safe-to-proceed while the TLB entry
for virtual page 5 — installed by the migration path, which keys entries
by start >> PAGE_SHIFT — survives, because line 177 passes
start << PAGE_SHIFT (start is already a byte address) to tlb_unmap_hmm,
so the removal keys miss every entry of the range; the function's own
doc comment promises all mappings of the range are removed. -/
theorem C3_invalidate_leaves_range_entry :
    (cyt_interval_invalidate
      (tlb_map_hmm [] (20480 >>> PAGE_SHIFT) [7] 1 true 0 42 false 1 0 MAX_N_MAP_PAGES)
      20480 24576 false 42 false true false 21 512 9).1 = true ∧
    TLBEntry.mk 5 7 true 0 42 false ∈
      (cyt_interval_invalidate
        (tlb_map_hmm [] (20480 >>> PAGE_SHIFT) [7] 1 true 0 42 false 1 0 MAX_N_MAP_PAGES)
        20480 24576 false 42 false true false 21 512 9).2 := by
  decide

/-- Claim C4 (refuted, code bug): installing the two-slot array [0, 7] at
base virtual page 100 skips the sentinel slot 0 but installs slot 1 at
virtual page 100 instead of 101, because the continue at line 1170 also
skips the tmp_vaddr increment at line 1174; the claim requires slot 1 to
be mapped at the virtual address corresponding to its position (101). -/
theorem C4_sparse_install_wrong_vaddr :
    tlb_map_hmm [] 100 [0, 7] 2 true 0 42 false 1 0 MAX_N_MAP_PAGES =
      [TLBEntry.mk 100 7 true 0 42 false] ∧
    ((tlb_map_hmm [] 100 [0, 7] 2 true 0 42 false 1 0 MAX_N_MAP_PAGES).all
      (fun e => e.vaddr != 101)) = true := by
  decide

/-- Claim C6 (refuted, code bug): when memremap_pages fails,
alloc_new_prvt_pages releases the region and frees the management struct
but returns 0 — success — with no pages threaded and no chunk recorded,
because the err_remap path (lines 1367-1371) never assigns ret_val; the
claim requires OutOfMemory on every failed step. -/
theorem C6_grow_remap_failure_returns_success :
    alloc_new_prvt_pages ⟨true, some (40960, 45055), false⟩ ⟨[], []⟩ =
      (0, ⟨[], []⟩, [Ev.release_region 40960]) ∧ (0 : Int) ≠ -ENOMEM := by
  decide

/-- Claim C7 (refuted, code bug): for a huge-granularity request covering
two 2 MiB huge pages (512 regular pages each) starting at 0,
mmu_handler_hmm computes last - first + 1 = 513 over REGULAR page indices
of the huge-aligned bounds and then multiplies by 512 again, yielding
262656, while the claim (number of spanned huge pages times the
constituent regular-page count) requires 1024. The two agree only when a
single granule is spanned. -/
theorem C7_huge_page_count_formula :
    n_pages_mmu_handler 0 (2 * 2 ^ 21) true 21 512 = 262656 ∧
    n_pages_granule_spec 0 (2 * 2 ^ 21) true 21 512 = 1024 ∧
    (262656 : Nat) ≠ 1024 := by
  decide

/-- Claim C10 (refuted, code bug): with an empty free list and a failing
chunk growth (management-struct allocation failure), alloc_private_page
executes the spin_unlock at line 1306 without any matching spin_lock, so
the page_lock balance of the returning execution is -1 instead of the
balanced 0 the claim requires; cpu_free_private_page, by contrast, is
balanced. -/
theorem C10_unmatched_unlock_on_grow_failure :
    alloc_private_page ⟨false, none, false⟩ ⟨[], []⟩ =
      ⟨none, false, ⟨[], []⟩, [Ev.spin_unlock LockId.page]⟩ ∧
    spinBalance LockId.page (alloc_private_page ⟨false, none, false⟩ ⟨[], []⟩).trace = -1 ∧
    spinBalance LockId.page (cpu_free_private_page ⟨[], []⟩ 5).2 = 0 := by
  decide

/-- Counterexample to claim C2 as stated: a two-page migrate-to-host whose
second destination allocation fails returns OutOfMemory, but the mapping
state is NOT as it was before the call — the pre-existing TLB entry for
page 5 of the range was removed by the pre-staging invalidation and is not
reinstalled — and the staged destination host page (pfn 9), produced by
the host allocator alloc_page_vma, is pushed onto the DEVICE-private free
list by cpu_free_private_page. -/
theorem C2_rollback_not_total_counterexample :
    (fpga_migrate_to_host envAllocFailToHost [TLBEntry.mk 5 33 false 0 42 false]
      20480 2 0 42).ret = -ENOMEM ∧
    TLBEntry.mk 5 33 false 0 42 false ∉
      (fpga_migrate_to_host envAllocFailToHost [TLBEntry.mk 5 33 false 0 42 false]
        20480 2 0 42).tlb ∧
    Ev.free_private_push 9 ∈
      (fpga_migrate_to_host envAllocFailToHost [TLBEntry.mk 5 33 false 0 42 false]
        20480 2 0 42).trace := by
  decide

/-- Counterexample to claim C5 as stated: a run whose first iteration
faults successfully but reads a stale sequence number performs the fault
call AGAIN on the retry (two hmm_range_fault invocations in total), since
the continue at line 337 re-enters the loop top, which re-reads the
sequence number and re-faults; the claim says the stale-sequence retry
happens without faulting again (which would leave the count at 1). -/
theorem C5_stale_retry_faults_again_counterexample :
    fpga_do_host_fault_loop [⟨false, 0, true⟩, ⟨false, 0, false⟩] 0 =
      some (FaultExit.ok, 0, 2) ∧ (2 : Nat) ≠ 1 := by
  decide

/-- Counterexample to claim C8 as stated: the user-initiated
migrate-to-host of one eligible page blocks in the DMA completion wait
while the device migration lock (mmu_lock) is held, because
user_migrate_to_host (lines 207-219) takes mmu_lock around the whole
fpga_migrate_to_host call, which contains the wait; the claim says no
execution holds that lock across the blocking DMA wait (count 0). -/
theorem C8_user_path_holds_lock_at_dma_wait :
    dmaWaitsHeldCount (user_migrate_to_host envOnePageLockStudy [] 4096 1 0 42).trace = 1 ∧
    (1 : Nat) ≠ 0 := by
  decide

/-- Counterexample to claim C9 as stated: a huge-granularity remove over a
range of two huge granules (n_pages = 1024 regular pages, 512 regular
pages per huge page) removes only the key of the first granule: the loop
bound n_map_pages is already the granule count (2) but the index still
advances by 512, so the entry at key vaddr + 512 — inside the requested
range — survives; the claim says remove walks the entire requested
range. -/
theorem C9_huge_unmap_misses_granule :
    TLBEntry.mk 522 7 true 0 42 true ∈
      tlb_unmap_hmm [TLBEntry.mk 522 7 true 0 42 true] 10 1024 42 true 512 9 := by
  decide

/-- Every entry of the fill-loop fold is either pre-existing or was read
from a slot of the paddr array that is visited by the loop and is not the
sentinel. -/
theorem mem_tlbMapFold (host : Bool) (ctid hpid : Int) (huge : Bool)
    (paddr : List Nat) (pg_inc : Nat) :
    ∀ (idxs : List Nat) (acc : Nat × List TLBEntry) (e : TLBEntry),
      e ∈ (idxs.foldl (tlbMapStep host ctid hpid huge paddr pg_inc) acc).2 →
      e ∈ acc.2 ∨ ∃ i ∈ idxs, paddr.getD i 0 ≠ 0 ∧ e.paddr = paddr.getD i 0
  | [], _, e => fun h => Or.inl h
  | i :: rest, acc, e => fun h => by
    rcases mem_tlbMapFold host ctid hpid huge paddr pg_inc rest _ e h with
      h1 | ⟨j, hj, hne, hpa⟩
    · unfold tlbMapStep at h1
      by_cases hz : paddr.getD i 0 == 0
      · rw [if_pos hz] at h1
        exact Or.inl h1
      · rw [if_neg hz] at h1
        simp only [create_tlb_mapping, List.mem_cons] at h1
        rcases h1 with rfl | h1
        · exact Or.inr ⟨i, List.mem_cons_self _ _, by simpa using hz, rfl⟩
        · exact Or.inl (List.mem_of_mem_filter h1)
    · exact Or.inr ⟨j, List.mem_cons_of_mem _ hj, hne, hpa⟩

/-- Membership in the removal fold: an entry survives iff it was present
and no visited index targets its (vaddr, hpid) key. -/
theorem mem_tlbUnmapFold (hpid : Int) (vaddr : Nat) :
    ∀ (idxs : List Nat) (tlb : List TLBEntry) (e : TLBEntry),
      e ∈ idxs.foldl (fun t i => create_tlb_unmapping t (vaddr + i) hpid) tlb ↔
        e ∈ tlb ∧ ∀ i ∈ idxs, ¬(e.vaddr = vaddr + i ∧ e.hpid = hpid)
  | [], tlb, e => by simp
  | i :: rest, tlb, e => by
    rw [List.foldl_cons, mem_tlbUnmapFold hpid vaddr rest, List.forall_mem_cons]
    simp only [create_tlb_unmapping, List.mem_filter, Bool.not_eq_eq_eq_not,
      Bool.not_true, Bool.and_eq_false_imp, beq_iff_eq, beq_eq_false_iff_ne, ne_eq]
    tauto

/-- The trivial stride filter of the regular-granularity loops. -/
theorem filter_mod_one (n : Nat) :
    (List.range n).filter (fun i => i % 1 == 0) = List.range n := by
  simp [Nat.mod_one]

/-- Claim C9 (amended): the install loop of tlb_map_hmm never reads a slot
at or beyond the MAX_N_MAP_PAGES cap — every entry it adds carries the
physical address of a non-sentinel slot with index below the cap — while
tlb_unmap_hmm applies no cap: at regular granularity every key
vaddr + j with j below the requested count is removed, for arbitrarily
large counts.  (At huge granularity both loops advance the index by
n_pages_in_huge over a bound already divided into huge-page units, so
only every n_pages_in_huge-th granule is visited — see the
counterexample.) -/
theorem C9_map_capped_unmap_uncapped (tlb : List TLBEntry) (vaddr : Nat)
    (paddr : List Nat) (n_pages : Nat) (host : Bool) (ctid hpid : Int)
    (huge : Bool) (k ds max_n_map : Nat) :
    (∀ e, e ∈ tlb_map_hmm tlb vaddr paddr n_pages host ctid hpid huge k ds max_n_map →
        e ∈ tlb ∨ ∃ i, i < max_n_map ∧ paddr.getD i 0 ≠ 0 ∧ e.paddr = paddr.getD i 0)
    ∧ (∀ e, e ∈ tlb → e.hpid = hpid → (∃ j, j < n_pages ∧ e.vaddr = vaddr + j) →
        e ∉ tlb_unmap_hmm tlb vaddr n_pages hpid false k ds) := by
  constructor
  · intro e he
    unfold tlb_map_hmm at he
    rcases mem_tlbMapFold host ctid hpid huge paddr _ _ _ e he with h | ⟨i, hi, hne, hpa⟩
    · exact Or.inl h
    · refine Or.inr ⟨i, ?_, hne, hpa⟩
      have h1 := (List.mem_filter.mp hi).1
      have h2 := List.mem_range.mp h1
      omega
  · rintro e he hh ⟨j, hj, hv⟩ hmem
    unfold tlb_unmap_hmm at hmem
    simp only [Bool.false_eq_true, if_false, filter_mod_one] at hmem
    rw [mem_tlbUnmapFold] at hmem
    exact hmem.2 j (List.mem_range.mpr hj) ⟨hv, hh⟩

/-- Witness for C9: the uncapped removal part applied at a concrete entry
whose key lies inside a concrete regular range, with the cap instantiated
at 0 in the install part. -/
theorem C9_map_capped_unmap_uncapped_witness :
    TLBEntry.mk 3 7 true 0 5 false ∉
      tlb_unmap_hmm [TLBEntry.mk 3 7 true 0 5 false] 2 4 5 false 1 0 :=
  (C9_map_capped_unmap_uncapped [TLBEntry.mk 3 7 true 0 5 false] 2 [] 4 true 0 5
      false 1 0 0).2
    (TLBEntry.mk 3 7 true 0 5 false) (by simp) rfl ⟨1, by omega, rfl⟩

/-- Claim C5 (amended): the host-fault resolution loop behaves as a
three-way state machine in which (1) an iteration that starts past the
wall-clock timeout returns Timeout, represented as -EBUSY, without
faulting; (2) transient contention reported by the fault call (-EBUSY)
retries; (3) a fault-call error other than -EBUSY is returned as is;
(4) when the previously read sequence number is stale relative to a
concurrent invalidation the loop retries INCLUDING a fresh fault call
(not "without faulting again" as the claim states — see the
counterexample); (5) otherwise the loop exits successfully; and (6) the
-EBUSY return is distinct for the caller: no fault-error exit ever
returns -EBUSY, so a caller seeing -EBUSY knows the time budget was
exceeded. -/
theorem C5_fault_loop_amended :
    (∀ (rest : List FaultIter) (k : Nat) (f : Int) (st : Bool),
      fpga_do_host_fault_loop (⟨true, f, st⟩ :: rest) k =
        some (FaultExit.timeout, -EBUSY, k))
    ∧ (∀ (rest : List FaultIter) (k : Nat) (st : Bool),
      fpga_do_host_fault_loop (⟨false, -EBUSY, st⟩ :: rest) k =
        fpga_do_host_fault_loop rest (k + 1))
    ∧ (∀ (rest : List FaultIter) (k : Nat) (st : Bool) (f : Int),
      f ≠ 0 → f ≠ -EBUSY →
      fpga_do_host_fault_loop (⟨false, f, st⟩ :: rest) k =
        some (FaultExit.fault_err, f, k + 1))
    ∧ (∀ (rest : List FaultIter) (k : Nat),
      fpga_do_host_fault_loop (⟨false, 0, true⟩ :: rest) k =
        fpga_do_host_fault_loop rest (k + 1))
    ∧ (∀ (rest : List FaultIter) (k : Nat),
      fpga_do_host_fault_loop (⟨false, 0, false⟩ :: rest) k =
        some (FaultExit.ok, 0, k + 1))
    ∧ (∀ (l : List FaultIter) (k : Nat) (r : Int) (m : Nat),
      fpga_do_host_fault_loop l k = some (FaultExit.fault_err, r, m) → r ≠ -EBUSY) := by
  refine ⟨?_, ?_, ?_, ?_, ?_, ?_⟩
  · intro rest k f st
    simp [fpga_do_host_fault_loop]
  · intro rest k st
    simp [fpga_do_host_fault_loop, EBUSY]
  · intro rest k st f h0 hb
    simp [fpga_do_host_fault_loop, h0, hb]
  · intro rest k
    simp [fpga_do_host_fault_loop]
  · intro rest k
    simp [fpga_do_host_fault_loop]
  · intro l
    induction l with
    | nil =>
      intro k r m h
      simp [fpga_do_host_fault_loop] at h
    | cons it rest ih =>
      intro k r m h
      rw [fpga_do_host_fault_loop] at h
      split_ifs at h with h1 h2 h3 h4
      · simp at h
      · exact ih (k + 1) r m h
      · simp only [Option.some.injEq, Prod.mk.injEq, true_and] at h
        rcases h with ⟨hr, -⟩
        rw [← hr]
        exact h3
      · exact ih (k + 1) r m h
      · simp at h

/-- Witness for C5: the fault-error equation applied at -EINVAL, a
concrete non-retryable fault result. -/
theorem C5_fault_loop_amended_witness :
    fpga_do_host_fault_loop [⟨false, -22, false⟩] 5 =
      some (FaultExit.fault_err, -22, 6) :=
  C5_fault_loop_amended.2.2.1 [] 5 false (-22) (by decide) (by decide)

/-- The undo loop of migrate-to-host reaches every staged slot: its three
release events for the staged page appear in the undo trace. -/
theorem mem_hostUndoTrace (env : ToHostEnv) (n i p : Nat) (hi : i < n)
    (he : env.eligible i = true) (ha : env.alloc_host i = some p) :
    Ev.unlock_page p ∈ hostUndoTrace env n ∧ Ev.put_page p ∈ hostUndoTrace env n ∧
      Ev.free_private_push p ∈ hostUndoTrace env n := by
  have hd : hostDpages env n i = some p := by simp [hostDpages, hi, he, ha]
  have hs : hostDst env n i = some p := by simp [hostDst, hostStagedPfn, hi, he, ha]
  refine ⟨?_, ?_, ?_⟩ <;>
  · rw [hostUndoTrace, List.mem_flatMap]
    exact ⟨i, List.mem_range.mpr hi, by rw [hd, hs]; simp⟩

/-- The undo loop of migrate-to-card reaches every staged slot. -/
theorem mem_cardUndoTrace (env : ToCardEnv) (n i p : Nat) (hi : i < n)
    (he : env.eligible i = true) (ha : env.alloc_priv i = some p) :
    Ev.unlock_page p ∈ cardUndoTrace env n ∧ Ev.put_page p ∈ cardUndoTrace env n ∧
      Ev.free_private_push p ∈ cardUndoTrace env n := by
  have hd : cardDpages env n i = some p := by simp [cardDpages, hi, he, ha]
  have hs : cardDst env n i = some p := by simp [cardDst, cardStagedPfn, hi, he, ha]
  refine ⟨?_, ?_, ?_⟩ <;>
  · rw [cardUndoTrace, List.mem_flatMap]
    exact ⟨i, List.mem_range.mpr hi, by rw [hd, hs]; simp⟩

/-- With the bookkeeping allocations succeeding, a vma found, a clean
setup, and some destination allocation failing, fpga_migrate_to_host takes
exactly the undo branch. -/
theorem hostFailReduce (env : ToHostEnv) (tlb : List TLBEntry) (start n : Nat)
    (ctid hpid : Int) (h1 : env.src_ok = true) (h2 : env.dst_ok = true)
    (h3 : env.spages_ok = true) (h4 : env.dpages_ok = true)
    (h5 : env.vma_ok = true) (h6 : env.setup_res = 0)
    (hf : hostDpagesFail env n = true) :
    fpga_migrate_to_host env tlb start n ctid hpid =
      ⟨-ENOMEM, tlb_unmap_hmm tlb (start >>> PAGE_SHIFT) n hpid false 1 0,
        [Ev.tlb_unmap_ev] ++ hostStageTrace env n ++ hostUndoTrace env n
          ++ [Ev.migrate_pages_commit 0, Ev.migrate_finalize]⟩ := by
  simp [fpga_migrate_to_host, hostAbortTrace, h1, h2, h3, h4, h5, h6, hf]

/-- With the bookkeeping allocations succeeding, a vma found, a clean
setup, and some destination allocation failing, fpga_migrate_to_card takes
exactly the undo branch. -/
theorem cardFailReduce (env : ToCardEnv) (tlb : List TLBEntry) (start n : Nat)
    (ctid hpid : Int) (h1 : env.src_ok = true) (h2 : env.dst_ok = true)
    (h3 : env.spages_ok = true) (h4 : env.dpages_ok = true)
    (h5 : env.vma_ok = true) (h6 : env.setup_res = 0)
    (hf : cardDpagesFail env n = true) :
    fpga_migrate_to_card_stage env tlb start n ctid hpid =
      ⟨false, -ENOMEM, tlb_unmap_hmm tlb (start >>> PAGE_SHIFT) n hpid false 1 0,
        [Ev.tlb_unmap_ev] ++ cardStageTrace env n ++ cardUndoTrace env n
          ++ [Ev.migrate_pages_commit 0, Ev.migrate_finalize]⟩ := by
  simp [fpga_migrate_to_card_stage, h1, h2, h3, h4, h5, h6, hf]

/-- Claim C2 (amended): in both directions, if any destination page
allocation fails and the bookkeeping allocations succeeded, the operation
aborts as a unit — every already-staged destination page is unlocked, its
reference dropped, and pushed onto the DEVICE-private free list by
cpu_free_private_page (for device-bound migration this is the allocator
that produced it; for host-bound migration the staged pages came from the
host allocator alloc_page_vma, so they are pushed onto a free list that
did not produce them), cpages is zeroed and the staged migration is
rolled back through migrate_vma_pages + migrate_vma_finalize, and the
call returns OutOfMemory.  The host page tables are restored by that
abort, but the accelerator TLB mapping state is NOT as before the call:
the entries removed by the pre-staging invalidation are not reinstalled —
the post-call TLB state is exactly the unmapped one. -/
theorem C2_abort_unit_amended (envH : ToHostEnv) (envC : ToCardEnv)
    (tlbH tlbC : List TLBEntry) (sH sC nH nC : Nat) (ctH ctC hpH hpC : Int)
    (hH1 : envH.src_ok = true) (hH2 : envH.dst_ok = true)
    (hH3 : envH.spages_ok = true) (hH4 : envH.dpages_ok = true)
    (hH5 : envH.vma_ok = true) (hH6 : envH.setup_res = 0)
    (hHf : hostDpagesFail envH nH = true)
    (hC1 : envC.src_ok = true) (hC2 : envC.dst_ok = true)
    (hC3 : envC.spages_ok = true) (hC4 : envC.dpages_ok = true)
    (hC5 : envC.vma_ok = true) (hC6 : envC.setup_res = 0)
    (hCf : cardDpagesFail envC nC = true) :
    ((fpga_migrate_to_host envH tlbH sH nH ctH hpH).ret = -ENOMEM ∧
      (fpga_migrate_to_host envH tlbH sH nH ctH hpH).tlb =
        tlb_unmap_hmm tlbH (sH >>> PAGE_SHIFT) nH hpH false 1 0 ∧
      Ev.migrate_pages_commit 0 ∈ (fpga_migrate_to_host envH tlbH sH nH ctH hpH).trace ∧
      Ev.migrate_finalize ∈ (fpga_migrate_to_host envH tlbH sH nH ctH hpH).trace ∧
      (∀ i p, i < nH → envH.eligible i = true → envH.alloc_host i = some p →
        Ev.unlock_page p ∈ (fpga_migrate_to_host envH tlbH sH nH ctH hpH).trace ∧
        Ev.put_page p ∈ (fpga_migrate_to_host envH tlbH sH nH ctH hpH).trace ∧
        Ev.free_private_push p ∈ (fpga_migrate_to_host envH tlbH sH nH ctH hpH).trace))
    ∧ ((fpga_migrate_to_card_stage envC tlbC sC nC ctC hpC).reached_success_path = false ∧
      (fpga_migrate_to_card_stage envC tlbC sC nC ctC hpC).ret = -ENOMEM ∧
      (fpga_migrate_to_card_stage envC tlbC sC nC ctC hpC).tlb =
        tlb_unmap_hmm tlbC (sC >>> PAGE_SHIFT) nC hpC false 1 0 ∧
      Ev.migrate_pages_commit 0 ∈ (fpga_migrate_to_card_stage envC tlbC sC nC ctC hpC).trace ∧
      Ev.migrate_finalize ∈ (fpga_migrate_to_card_stage envC tlbC sC nC ctC hpC).trace ∧
      (∀ i p, i < nC → envC.eligible i = true → envC.alloc_priv i = some p →
        Ev.unlock_page p ∈ (fpga_migrate_to_card_stage envC tlbC sC nC ctC hpC).trace ∧
        Ev.put_page p ∈ (fpga_migrate_to_card_stage envC tlbC sC nC ctC hpC).trace ∧
        Ev.free_private_push p ∈ (fpga_migrate_to_card_stage envC tlbC sC nC ctC hpC).trace)) := by
  rw [hostFailReduce envH tlbH sH nH ctH hpH hH1 hH2 hH3 hH4 hH5 hH6 hHf,
    cardFailReduce envC tlbC sC nC ctC hpC hC1 hC2 hC3 hC4 hC5 hC6 hCf]
  refine ⟨⟨rfl, rfl, by simp, by simp, ?_⟩, rfl, rfl, rfl, by simp, by simp, ?_⟩
  · intro i p hi he ha
    have h := mem_hostUndoTrace envH nH i p hi he ha
    exact ⟨by simp [h.1], by simp [h.2.1], by simp [h.2.2]⟩
  · intro i p hi he ha
    have h := mem_cardUndoTrace envC nC i p hi he ha
    exact ⟨by simp [h.1], by simp [h.2.1], by simp [h.2.2]⟩

/-- Witness for C2 (amended), at the concrete allocation-failure worlds:
a two-page host-bound migration failing at slot 1 and a three-page
card-bound migration failing at slot 2. -/
theorem C2_abort_unit_amended_witness :
    (fpga_migrate_to_host envAllocFailToHost [] 20480 2 0 42).ret = -ENOMEM ∧
    Ev.free_private_push 9 ∈ (fpga_migrate_to_host envAllocFailToHost [] 20480 2 0 42).trace ∧
    (fpga_migrate_to_card_stage envAllocFailToCard [] 0 3 0 1).ret = -ENOMEM ∧
    Ev.free_private_push 70 ∈ (fpga_migrate_to_card_stage envAllocFailToCard [] 0 3 0 1).trace := by
  have h := C2_abort_unit_amended envAllocFailToHost envAllocFailToCard [] []
    20480 0 2 3 0 0 42 1 rfl rfl rfl rfl rfl rfl (by decide)
    rfl rfl rfl rfl rfl rfl (by decide)
  exact ⟨h.1.1, (h.1.2.2.2.2 0 9 (by omega) rfl rfl).2.2,
    h.2.2.1, (h.2.2.2.2.2.2 0 70 (by omega) rfl rfl).2.2⟩

/-- The staging trace consists of page-lock events only, so it never
touches the device migration lock. -/
theorem mmuDelta_hostStageTrace (env : ToHostEnv) (n : Nat) :
    ∀ e ∈ hostStageTrace env n, mmuDelta e = 0 := by
  intro e he
  rw [hostStageTrace, List.mem_flatMap] at he
  obtain ⟨i, -, hf⟩ := he
  revert hf
  cases hostStagedPfn env i with
  | none => simp
  | some p =>
    intro hf
    simp only [List.mem_singleton] at hf
    subst hf
    rfl

/-- The undo trace consists of page release events only. -/
theorem mmuDelta_hostUndoTrace (env : ToHostEnv) (n : Nat) :
    ∀ e ∈ hostUndoTrace env n, mmuDelta e = 0 := by
  intro e he
  rw [hostUndoTrace, List.mem_flatMap] at he
  obtain ⟨i, -, hf⟩ := he
  revert hf
  cases hostDpages env n i with
  | none => simp
  | some p =>
    cases hostDst env n i with
    | none => simp
    | some q =>
      intro hf
      simp only [List.mem_cons, List.not_mem_nil, or_false] at hf
      rcases hf with rfl | rfl | rfl <;> rfl

/-- The abort trace never touches the device migration lock. -/
theorem mmuFree_hostAbortTrace (env : ToHostEnv) (n : Nat) :
    ∀ e ∈ hostAbortTrace env n, mmuDelta e = 0 := by
  intro e he
  simp only [hostAbortTrace, List.mem_append, List.mem_cons, List.not_mem_nil,
    or_false, or_assoc] at he
  rcases he with rfl | he | he | rfl | rfl
  · rfl
  · exact mmuDelta_hostStageTrace env n e he
  · exact mmuDelta_hostUndoTrace env n e he
  · rfl
  · rfl

/-- The success trace never touches the device migration lock (the DMA
section only takes sync_lock). -/
theorem mmuFree_hostSuccessTrace (env : ToHostEnv) (n : Nat) :
    ∀ e ∈ hostSuccessTrace env n, mmuDelta e = 0 := by
  intro e he
  by_cases hcp : 0 < hostCpages env n <;>
    simp only [hostSuccessTrace, hcp, if_true, if_false, List.mem_append,
      List.mem_cons, List.not_mem_nil, or_false, or_assoc] at he
  · rcases he with rfl | he | rfl | rfl | rfl | rfl | rfl | rfl | rfl | rfl <;>
      first
        | rfl
        | exact mmuDelta_hostStageTrace env n e he
  · rcases he with rfl | he | rfl | rfl | rfl | rfl <;>
      first
        | rfl
        | exact mmuDelta_hostStageTrace env n e he

/-- The trace of a fpga_migrate_to_host call takes one of four shapes:
empty (early exit), invalidation plus staging (address-array allocation
failure), the abort trace, or the success trace. -/
theorem hostTraceShape (env : ToHostEnv) (tlb : List TLBEntry) (start n : Nat)
    (ctid hpid : Int) :
    (fpga_migrate_to_host env tlb start n ctid hpid).trace = [] ∨
    (fpga_migrate_to_host env tlb start n ctid hpid).trace =
      [Ev.tlb_unmap_ev] ++ hostStageTrace env n ∨
    (fpga_migrate_to_host env tlb start n ctid hpid).trace = hostAbortTrace env n ∨
    (fpga_migrate_to_host env tlb start n ctid hpid).trace = hostSuccessTrace env n := by
  unfold fpga_migrate_to_host
  split_ifs <;> simp

/-- The fault-handler migration path never acquires or releases the
device migration lock: every event of any fpga_migrate_to_host trace has
zero mmu_lock contribution. -/
theorem mmuFree_fpga_migrate_to_host (env : ToHostEnv) (tlb : List TLBEntry)
    (start n : Nat) (ctid hpid : Int) :
    ∀ e ∈ (fpga_migrate_to_host env tlb start n ctid hpid).trace, mmuDelta e = 0 := by
  rcases hostTraceShape env tlb start n ctid hpid with h | h | h | h <;> rw [h]
  · simp
  · intro e he
    simp only [List.mem_append, List.mem_cons, List.not_mem_nil, or_false] at he
    rcases he with rfl | he
    · rfl
    · exact mmuDelta_hostStageTrace env n e he
  · exact mmuFree_hostAbortTrace env n
  · exact mmuFree_hostSuccessTrace env n

/-- A dma-wait check walk is unchanged by a prefix that never touches
mmu_lock, as long as the hold count stays positive. -/
theorem dmaGo_append_of_mmuFree :
    ∀ (tr rest : List Ev) (d : Int), 0 < d → (∀ e ∈ tr, mmuDelta e = 0) →
      dmaWaitsUnderMmuGo (tr ++ rest) d = dmaWaitsUnderMmuGo rest d
  | [], _, _, _, _ => rfl
  | e :: tr, rest, d, hd, hall => by
    have he0 : mmuDelta e = 0 := hall e (List.mem_cons_self _ _)
    have htail : ∀ x ∈ tr, mmuDelta x = 0 := fun x hx => hall x (List.mem_cons_of_mem _ hx)
    by_cases hdma : e = Ev.dma_wait
    · simp only [List.cons_append, dmaWaitsUnderMmuGo, if_pos hdma, decide_eq_true hd,
        Bool.true_and]
      exact dmaGo_append_of_mmuFree tr rest d hd htail
    · simp only [List.cons_append, dmaWaitsUnderMmuGo, if_neg hdma, he0, add_zero]
      exact dmaGo_append_of_mmuFree tr rest d hd htail

/-- Claim C8 (amended): the fault-handler path (mmu_handler_hmm calling
fpga_migrate_to_host directly) never takes the device migration lock at
all — its trace has no mmu_lock events — while the user-initiated path
(user_migrate_to_host) takes mmu_lock around the whole operation and
holds it at every blocking DMA wait; the lock is NOT released before the
DMA wait as the claim states. -/
theorem C8_lock_discipline_amended (env : ToHostEnv) (tlb : List TLBEntry)
    (start n : Nat) (ctid hpid : Int) :
    (∀ e ∈ (fpga_migrate_to_host env tlb start n ctid hpid).trace, mmuDelta e = 0)
    ∧ dmaWaitsUnderMmu (user_migrate_to_host env tlb start n ctid hpid).trace = true := by
  refine ⟨mmuFree_fpga_migrate_to_host env tlb start n ctid hpid, ?_⟩
  show dmaWaitsUnderMmuGo
    ([Ev.mutex_lock LockId.mmu, Ev.tlb_lock_toggle]
      ++ (fpga_migrate_to_host env tlb start n ctid hpid).trace
      ++ [Ev.tlb_lock_toggle, Ev.mutex_unlock LockId.mmu]) 0 = true
  simp only [List.append_assoc, List.cons_append, List.nil_append]
  rw [dmaWaitsUnderMmuGo, if_neg (by decide), dmaWaitsUnderMmuGo, if_neg (by decide)]
  norm_num [mmuDelta]
  rw [dmaGo_append_of_mmuFree _ _ 1 (by norm_num)
    (mmuFree_fpga_migrate_to_host env tlb start n ctid hpid)]
  decide

/-- Witness for C8 (amended), at the concrete single-page world: every
DMA wait of the user path happens under mmu_lock. -/
theorem C8_lock_discipline_amended_witness :
    dmaWaitsUnderMmu (user_migrate_to_host envOnePageLockStudy [] 4096 1 0 42).trace = true :=
  (C8_lock_discipline_amended envOnePageLockStudy [] 4096 1 0 42).2

end CoyoteHMM
